import Mathlib

/-!
Shallow embedding of the webhook-logging endpoint (`webhook_handler.py`)
and the token generator (`generate_token.py`) of the repository.

Python values flowing through the handler are JSON-like, so they are
modelled by the inductive `Json` below; Python `None` is `Json.null`.
Environment variables are modelled as `Option String` (`none` = unset).
External library functions (the HMAC-SHA256 hex digest from `hmac` /
`hashlib`, and the LiveKit SDK's `to_jwt`) are parameters of the
embedded functions: the repository's code only consumes their results.
Exceptions raised while processing a request are modelled by
`Except String`, carrying the Python `str(e)` message.
-/

/-- JSON-like Python values handled by the webhook endpoint.
`null` models Python `None`. Numbers are modelled by `Int`. -/
inductive Json where
  | null : Json
  | bool : Bool → Json
  | num : Int → Json
  | str : String → Json
  | arr : List Json → Json
  | obj : List (String × Json) → Json
deriving Repr

/-- Python truthiness (`bool(x)`) for the modelled values:
`None`, `False`, `0`, `""`, `[]` and `{}` are falsy. -/
def Json.isTruthy : Json → Bool
  | .null => false
  | .bool b => b
  | .num n => n != 0
  | .str s => s ≠ ""
  | .arr xs => !xs.isEmpty
  | .obj fs => !fs.isEmpty

/-- The Python runtime type name of a modelled value, as it appears in
an `AttributeError` message. -/
def Json.pyTypeName : Json → String
  | .null => "NoneType"
  | .bool _ => "bool"
  | .num _ => "int"
  | .str _ => "str"
  | .arr _ => "list"
  | .obj _ => "dict"

/-- The message of the `AttributeError` raised by Python when `.get` is
called on a non-dict value `j`. -/
def attrErrGet (j : Json) : String :=
  "'" ++ j.pyTypeName ++ "' object has no attribute 'get'"

/-- Python `d.get(k, default)` on the field list of a dict: the value of
the first binding of `k`, or `default` when `k` is absent. -/
def pyDictGet (fields : List (String × Json)) (k : String) (default : Json) : Json :=
  match fields.find? (fun p => p.1 = k) with
  | some p => p.2
  | none => default

/-- Python truthiness of an optional environment-variable value:
`os.getenv` returns `None` when unset, and `not v` is also true for the
empty string. -/
def envFalsy : Option String → Bool
  | none => true
  | some s => s = ""

/-- One entry of the in-memory `call_logs` list: the `log_entry` dict
built by `handle_webhook` (timestamp, raw webhook body, extracted fields). -/
structure LogEntry where
  timestamp : String
  raw_webhook : Json
  extracted_fields : Json
deriving Repr

/-- Render a `LogEntry` back as the JSON dict stored by the handler,
as it is serialised by `GET /logs`. -/
def LogEntry.toJson (e : LogEntry) : Json :=
  Json.obj [("timestamp", Json.str e.timestamp),
            ("raw_webhook", e.raw_webhook),
            ("extracted_fields", e.extracted_fields)]

/-- A Flask response: the jsonified body and the HTTP status code. -/
structure Response where
  body : Json
  status : Nat
deriving Repr

/-- An inbound `POST /webhook` request:
`raw_payload` is `request.get_data()` (raw bytes);
`signature` is the `X-LiveKit-Signature` header (`none` = absent);
`getJson` is the outcome of `request.json` (`.ok none` = missing body,
`.error e` = an exception raised while parsing). -/
structure WebhookRequest where
  raw_payload : List Nat
  signature : Option String
  getJson : Except String (Option Json)

/-- Python `str.isascii()`: every character below U+0080. -/
def pyIsAscii (s : String) : Bool :=
  s.data.all (fun c => c.toNat < 128)

/-- CPython's `hmac.compare_digest(a, b)` on two `str` arguments: a
constant-time equality test, but it raises
`TypeError("comparing strings with non-ASCII characters is not
supported")` when either string contains a non-ASCII character (HTTP
header values are latin-1 decoded, so such signatures are reachable). -/
def compare_digest (a b : String) : Except String Bool :=
  if pyIsAscii a && pyIsAscii b then
    Except.ok (a == b)
  else
    Except.error "comparing strings with non-ASCII characters is not supported"

/-- `verify_webhook_signature(payload, signature)` from
`webhook_handler.py`: when `WEBHOOK_SECRET` is unset or empty the check
is skipped and the function returns `True`; otherwise the result is
`hmac.compare_digest` of the hex HMAC-SHA256 of the payload under the
secret against the signature — which can raise `TypeError` on a
non-ASCII signature (`Except.error`). -/
def verify_webhook_signature (WEBHOOK_SECRET : Option String)
    (hmacSha256Hex : String → List Nat → String)
    (payload : List Nat) (signature : String) : Except String Bool :=
  if envFalsy WEBHOOK_SECRET then
    Except.ok true
  else
    let expected_signature := hmacSha256Hex (WEBHOOK_SECRET.getD "") payload
    compare_digest expected_signature signature

/-- `extract_webhook_fields(webhook_data)` from `webhook_handler.py`.
Faithful to Python evaluation order: the `event`/`id`/`createdAt`
lookups succeed on any dict; building `room_info` calls `.get` on
`webhook_data.get("room", {})`, raising `AttributeError` when that
value is not a dict; `participant_info` is built only when
`webhook_data.get("participant")` is truthy, and raises when that
truthy value is not a dict. A non-dict `webhook_data` raises at the
first `.get`. -/
def extract_webhook_fields : Json → Except String Json
  | Json.obj fs =>
    match pyDictGet fs "room" (Json.obj []) with
    | Json.obj rfs =>
      if (pyDictGet fs "participant" Json.null).isTruthy then
        match pyDictGet fs "participant" Json.null with
        | Json.obj pfs =>
          Except.ok (Json.obj
            [("event_type", pyDictGet fs "event" Json.null),
             ("event_id", pyDictGet fs "id" Json.null),
             ("created_at", pyDictGet fs "createdAt" Json.null),
             ("room_info", Json.obj
               [("sid", pyDictGet rfs "sid" Json.null),
                ("name", pyDictGet rfs "name" Json.null),
                ("num_participants", pyDictGet rfs "numParticipants" Json.null),
                ("creation_time", pyDictGet rfs "creationTime" Json.null)]),
             ("participant_info", Json.obj
               [("sid", pyDictGet pfs "sid" Json.null),
                ("identity", pyDictGet pfs "identity" Json.null),
                ("joined_at", pyDictGet pfs "joinedAt" Json.null)])])
        | p => Except.error (attrErrGet p)
      else
        Except.ok (Json.obj
          [("event_type", pyDictGet fs "event" Json.null),
           ("event_id", pyDictGet fs "id" Json.null),
           ("created_at", pyDictGet fs "createdAt" Json.null),
           ("room_info", Json.obj
             [("sid", pyDictGet rfs "sid" Json.null),
              ("name", pyDictGet rfs "name" Json.null),
              ("num_participants", pyDictGet rfs "numParticipants" Json.null),
              ("creation_time", pyDictGet rfs "creationTime" Json.null)]),
           ("participant_info", Json.null)])
    | room => Except.error (attrErrGet room)
  | wd => Except.error (attrErrGet wd)

/-- Equation helper: `extract_webhook_fields` on a dict body, stated so
that rewriting can expose the `room`/`participant` lookups. -/
theorem extract_webhook_fields_obj (fs : List (String × Json)) :
    extract_webhook_fields (Json.obj fs) =
      match pyDictGet fs "room" (Json.obj []) with
      | Json.obj rfs =>
        if (pyDictGet fs "participant" Json.null).isTruthy then
          match pyDictGet fs "participant" Json.null with
          | Json.obj pfs =>
            Except.ok (Json.obj
              [("event_type", pyDictGet fs "event" Json.null),
               ("event_id", pyDictGet fs "id" Json.null),
               ("created_at", pyDictGet fs "createdAt" Json.null),
               ("room_info", Json.obj
                 [("sid", pyDictGet rfs "sid" Json.null),
                  ("name", pyDictGet rfs "name" Json.null),
                  ("num_participants", pyDictGet rfs "numParticipants" Json.null),
                  ("creation_time", pyDictGet rfs "creationTime" Json.null)]),
               ("participant_info", Json.obj
                 [("sid", pyDictGet pfs "sid" Json.null),
                  ("identity", pyDictGet pfs "identity" Json.null),
                  ("joined_at", pyDictGet pfs "joinedAt" Json.null)])])
          | p => Except.error (attrErrGet p)
        else
          Except.ok (Json.obj
            [("event_type", pyDictGet fs "event" Json.null),
             ("event_id", pyDictGet fs "id" Json.null),
             ("created_at", pyDictGet fs "createdAt" Json.null),
             ("room_info", Json.obj
               [("sid", pyDictGet rfs "sid" Json.null),
                ("name", pyDictGet rfs "name" Json.null),
                ("num_participants", pyDictGet rfs "numParticipants" Json.null),
                ("creation_time", pyDictGet rfs "creationTime" Json.null)]),
             ("participant_info", Json.null)])
      | room => Except.error (attrErrGet room) := rfl

/-- Whether a modelled value is a Python dict. -/
def Json.isObj : Json → Bool
  | Json.obj _ => true
  | _ => false

/-- The JSON bodies on which `extract_webhook_fields` completes without
raising: a non-empty dict whose `room` value (defaulting to `{}`) is a
dict and whose `participant` value, when truthy, is a dict. -/
def extractableBody (wd : Json) : Bool :=
  match wd with
  | Json.obj fs =>
    !fs.isEmpty
      && (pyDictGet fs "room" (Json.obj [])).isObj
      && (!(pyDictGet fs "participant" Json.null).isTruthy
            || (pyDictGet fs "participant" Json.null).isObj)
  | _ => false

/-- Python `d["event_type"]` on the extracted-fields dict (the key is
always present by construction of `extract_webhook_fields`). -/
def Json.index (j : Json) (k : String) : Json :=
  match j with
  | Json.obj fs => pyDictGet fs k Json.null
  | _ => Json.null

/-- `handle_webhook()` from `webhook_handler.py`, as a function of the
configuration (`WEBHOOK_SECRET`, the HMAC primitive), the current
timestamp string, the current `call_logs` list and the request.
Returns the Flask response together with the updated `call_logs`.
The `try`/`except Exception` wrapper maps any raised exception `e`
(modelled by `Except.error e`) to `({"error": str(e)}, 500)`. -/
def handle_webhook (WEBHOOK_SECRET : Option String)
    (hmacSha256Hex : String → List Nat → String)
    (now : String) (call_logs : List LogEntry)
    (req : WebhookRequest) : Response × List LogEntry :=
  match verify_webhook_signature WEBHOOK_SECRET hmacSha256Hex
      req.raw_payload (req.signature.getD "") with
  | Except.error e =>
    ({ body := Json.obj [("error", Json.str e)], status := 500 }, call_logs)
  | Except.ok verified =>
  if !verified then
    ({ body := Json.obj [("error", Json.str "Invalid signature")], status := 401 }, call_logs)
  else
    match req.getJson with
    | Except.error e =>
      ({ body := Json.obj [("error", Json.str e)], status := 500 }, call_logs)
    | Except.ok webhook_data =>
      match webhook_data with
      | none =>
        ({ body := Json.obj [("error", Json.str "No data provided")], status := 400 }, call_logs)
      | some wd =>
        if !wd.isTruthy then
          ({ body := Json.obj [("error", Json.str "No data provided")], status := 400 }, call_logs)
        else
          match extract_webhook_fields wd with
          | Except.error e =>
            ({ body := Json.obj [("error", Json.str e)], status := 500 }, call_logs)
          | Except.ok extracted_data =>
            let log_entry : LogEntry :=
              { timestamp := now, raw_webhook := wd, extracted_fields := extracted_data }
            ({ body := Json.obj
                 [("status", Json.str "success"),
                  ("event_processed", extracted_data.index "event_type")],
               status := 200 },
             call_logs ++ [log_entry])

/-- `get_logs()` from `webhook_handler.py`: jsonify the accumulated
`call_logs` with its length; the list itself is not modified
(returned unchanged). Flask's default status is 200. -/
def get_logs (call_logs : List LogEntry) : Response × List LogEntry :=
  ({ body := Json.obj
       [("total_events", Json.num call_logs.length),
        ("logs", Json.arr (call_logs.map LogEntry.toJson))],
     status := 200 },
   call_logs)

/-- `health_check()` from `webhook_handler.py`: a constant response
referring to no state. Flask's default status is 200. -/
def health_check : Response :=
  { body := Json.obj [("status", Json.str "healthy"),
                      ("service", Json.str "webhook_handler")],
    status := 200 }

/-- `generate_token(room_name, participant_identity)` from
`generate_token.py`, as a function of the environment and of the
LiveKit SDK's token serialiser `to_jwt` (api_key, api_secret,
identity, room → JWT string). Returns `none` (Python `None`) when
either credential is unset or empty, the JWT string otherwise. -/
def generate_token (env : String → Option String)
    (to_jwt : String → String → String → String → String)
    (room_name participant_identity : String) : Option String :=
  let api_key := env "LIVEKIT_API_KEY"
  let api_secret := env "LIVEKIT_API_SECRET"
  if envFalsy api_key || envFalsy api_secret then
    none
  else
    let jwt_token := to_jwt (api_key.getD "") (api_secret.getD "")
      participant_identity room_name
    some jwt_token

/-! ## Theorems -/

/-- Helper: one `POST /webhook` request either leaves `call_logs`
unchanged, or returns status 200 and appends exactly one entry. -/
theorem handle_webhook_log_evolution (WEBHOOK_SECRET : Option String)
    (hm : String → List Nat → String) (now : String)
    (call_logs : List LogEntry) (req : WebhookRequest) :
    (handle_webhook WEBHOOK_SECRET hm now call_logs req).2 = call_logs ∨
    ((handle_webhook WEBHOOK_SECRET hm now call_logs req).1.status = 200 ∧
      ∃ e, (handle_webhook WEBHOOK_SECRET hm now call_logs req).2 = call_logs ++ [e]) := by
  unfold handle_webhook
  split
  · exact Or.inl rfl
  · split
    · exact Or.inl rfl
    · split
      · exact Or.inl rfl
      · split
        · exact Or.inl rfl
        · split
          · exact Or.inl rfl
          · split
            · exact Or.inl rfl
            · exact Or.inr ⟨rfl, _, rfl⟩

/-- C6: `GET /health` always returns the fixed body
`{"status": "healthy", "service": "webhook_handler"}` (status 200);
`health_check` reads no state at all. -/
theorem health_check_fixed :
    health_check =
      { body := Json.obj [("status", Json.str "healthy"),
                          ("service", Json.str "webhook_handler")],
        status := 200 } := rfl

/-- C8: `GET /logs` returns the accumulated `call_logs` serialised in
order, with `total_events` equal to its length, and leaves the list
unchanged. -/
theorem get_logs_returns_all (call_logs : List LogEntry) :
    get_logs call_logs =
      ({ body := Json.obj
           [("total_events", Json.num call_logs.length),
            ("logs", Json.arr (call_logs.map LogEntry.toJson))],
         status := 200 },
       call_logs) := rfl

/-- C7: `call_logs` is append-only: a `POST /webhook` request only ever
extends the list at the end, and `GET /logs` returns it unchanged
(`health_check` is a constant that does not touch the list). -/
theorem call_logs_append_only (WEBHOOK_SECRET : Option String)
    (hm : String → List Nat → String) (now : String)
    (call_logs : List LogEntry) (req : WebhookRequest) :
    (∃ tail, (handle_webhook WEBHOOK_SECRET hm now call_logs req).2 =
      call_logs ++ tail) ∧
    (get_logs call_logs).2 = call_logs := by
  refine ⟨?_, rfl⟩
  rcases handle_webhook_log_evolution WEBHOOK_SECRET hm now call_logs req with h | ⟨-, e, h⟩
  · exact ⟨[], by simp [h]⟩
  · exact ⟨[e], h⟩

/-- C1 (counterexample): with a configured secret, a *non-ASCII*
`X-LiveKit-Signature` header (reachable, headers are latin-1 decoded)
that differs from the digest is answered 500 — the `TypeError` raised
by `hmac.compare_digest` — not 401, refuting the claim that every
mismatching header yields 401. -/
theorem webhook_nonascii_signature_500 :
    ("ÿ" : String) ≠ "deadbeef" ∧
    handle_webhook (some "secret") (fun _ _ => "deadbeef") "2024-01-01T00:00:00" []
      { raw_payload := [], signature := some "ÿ", getJson := Except.ok none } =
      ({ body := Json.obj [("error", Json.str
           "comparing strings with non-ASCII characters is not supported")],
         status := 500 }, []) :=
  ⟨by decide, rfl⟩

/-- C1 (amended): with a configured (non-empty) webhook secret and an
`X-LiveKit-Signature` header (absent = `""`) that differs from the hex
HMAC-SHA256 of the raw body (an ASCII hex string): an ASCII header is
answered 401 with body `{"error": "Invalid signature"}`, while a
non-ASCII header makes `hmac.compare_digest` raise `TypeError` and is
answered 500 with that message; the log list is untouched either way. -/
theorem webhook_invalid_signature_401 (secret : String) (hsecret : secret ≠ "")
    (hm : String → List Nat → String) (now : String)
    (call_logs : List LogEntry) (req : WebhookRequest)
    (hexp : pyIsAscii (hm secret req.raw_payload) = true)
    (hsig : req.signature.getD "" ≠ hm secret req.raw_payload) :
    (pyIsAscii (req.signature.getD "") = true →
      handle_webhook (some secret) hm now call_logs req =
        ({ body := Json.obj [("error", Json.str "Invalid signature")],
           status := 401 }, call_logs)) ∧
    (pyIsAscii (req.signature.getD "") = false →
      handle_webhook (some secret) hm now call_logs req =
        ({ body := Json.obj [("error", Json.str
             "comparing strings with non-ASCII characters is not supported")],
           status := 500 }, call_logs)) := by
  have hfe : envFalsy (some secret) = false := by simp [envFalsy, hsecret]
  constructor
  · intro hasc
    have hbeq : (hm secret req.raw_payload == req.signature.getD "") = false :=
      beq_eq_false_iff_ne.mpr fun h => hsig h.symm
    have hv : verify_webhook_signature (some secret) hm req.raw_payload
        (req.signature.getD "") = Except.ok false := by
      unfold verify_webhook_signature compare_digest
      rw [hfe]
      simp only [Bool.false_eq_true, if_false, Option.getD_some]
      rw [hexp, hasc]
      simp [hbeq]
    unfold handle_webhook
    rw [hv]
    rfl
  · intro hasc
    have hv : verify_webhook_signature (some secret) hm req.raw_payload
        (req.signature.getD "") = Except.error
          "comparing strings with non-ASCII characters is not supported" := by
      unfold verify_webhook_signature compare_digest
      rw [hfe]
      simp only [Bool.false_eq_true, if_false, Option.getD_some]
      rw [hexp, hasc]
      rfl
    unfold handle_webhook
    rw [hv]

/-- C9: with `WEBHOOK_SECRET` unset or empty, `verify_webhook_signature`
accepts every payload and signature, so no `POST /webhook` request is
ever answered with 401. -/
theorem no_secret_accepts_all (WEBHOOK_SECRET : Option String)
    (hsecret : WEBHOOK_SECRET = none ∨ WEBHOOK_SECRET = some "") :
    (∀ (hm : String → List Nat → String) (payload : List Nat) (signature : String),
      verify_webhook_signature WEBHOOK_SECRET hm payload signature = Except.ok true) ∧
    (∀ (hm : String → List Nat → String) (now : String)
        (call_logs : List LogEntry) (req : WebhookRequest),
      (handle_webhook WEBHOOK_SECRET hm now call_logs req).1.status ≠ 401) := by
  have hfe : envFalsy WEBHOOK_SECRET = true := by
    rcases hsecret with h | h <;> simp [h, envFalsy]
  have hv : ∀ (hm : String → List Nat → String) (payload : List Nat) (s : String),
      verify_webhook_signature WEBHOOK_SECRET hm payload s = Except.ok true := by
    intro hm payload s
    unfold verify_webhook_signature
    rw [hfe]
    rfl
  refine ⟨hv, fun hm now call_logs req => ?_⟩
  unfold handle_webhook
  simp only [hv hm req.raw_payload (req.signature.getD ""),
    Bool.not_true, Bool.false_eq_true, if_false]
  split
  · simp
  · split
    · simp
    · split
      · simp
      · split
        · simp
        · simp

/-- C10: whenever `handle_webhook` answers 401 (invalid signature) or
400 (missing body), the `call_logs` list is returned exactly as it was:
the error paths never touch the stored state. -/
theorem error_responses_preserve_logs (WEBHOOK_SECRET : Option String)
    (hm : String → List Nat → String) (now : String)
    (call_logs : List LogEntry) (req : WebhookRequest)
    (h : (handle_webhook WEBHOOK_SECRET hm now call_logs req).1.status = 401 ∨
         (handle_webhook WEBHOOK_SECRET hm now call_logs req).1.status = 400) :
    (handle_webhook WEBHOOK_SECRET hm now call_logs req).2 = call_logs := by
  rcases handle_webhook_log_evolution WEBHOOK_SECRET hm now call_logs req with
    h2 | ⟨hs, -, -⟩
  · exact h2
  · rcases h with h | h <;> rw [hs] at h <;> exact absurd h (by decide)

/-- C4: after the signature check passes, a missing JSON body is
answered with 400 `{"error": "No data provided"}` (state untouched),
while a present non-empty JSON object body never takes the 400 branch. -/
theorem webhook_missing_body_400 (WEBHOOK_SECRET : Option String)
    (hm : String → List Nat → String) (now : String)
    (call_logs : List LogEntry) (req : WebhookRequest)
    (hsig : verify_webhook_signature WEBHOOK_SECRET hm
      req.raw_payload (req.signature.getD "") = Except.ok true) :
    (req.getJson = Except.ok none →
      handle_webhook WEBHOOK_SECRET hm now call_logs req =
        ({ body := Json.obj [("error", Json.str "No data provided")],
           status := 400 }, call_logs)) ∧
    (∀ fs : List (String × Json), fs ≠ [] →
      req.getJson = Except.ok (some (Json.obj fs)) →
      (handle_webhook WEBHOOK_SECRET hm now call_logs req).1.status ≠ 400) := by
  constructor
  · intro hjson
    unfold handle_webhook
    rw [hsig, hjson]
    rfl
  · intro fs hfs hjson
    have ht : (Json.obj fs).isTruthy = true := by
      simp [Json.isTruthy, hfs]
    unfold handle_webhook
    rw [hsig, hjson]
    simp only [Bool.not_true, Bool.false_eq_true, if_false, ht, if_true]
    split
    · simp
    · simp

/-- C5: when processing raises an exception past the handled 401/400
cases — the body parse itself raises, or field extraction raises on a
signature-accepted truthy body — the handler answers 500 with the
exception's message in the `error` field (and the log list untouched). -/
theorem webhook_exception_500 (WEBHOOK_SECRET : Option String)
    (hm : String → List Nat → String) (now : String)
    (call_logs : List LogEntry) (req : WebhookRequest) (e : String)
    (hsig : verify_webhook_signature WEBHOOK_SECRET hm
      req.raw_payload (req.signature.getD "") = Except.ok true)
    (hexc : req.getJson = Except.error e ∨
      ∃ wd, req.getJson = Except.ok (some wd) ∧ wd.isTruthy = true ∧
        extract_webhook_fields wd = Except.error e) :
    handle_webhook WEBHOOK_SECRET hm now call_logs req =
      ({ body := Json.obj [("error", Json.str e)], status := 500 },
       call_logs) := by
  rcases hexc with hjson | ⟨wd, hjson, ht, hext⟩
  · unfold handle_webhook
    rw [hsig, hjson]
    rfl
  · unfold handle_webhook
    rw [hsig, hjson]
    simp only [Bool.not_true, Bool.false_eq_true, if_false, ht, Bool.not_true, if_false]
    rw [hext]

/-- Helper: on every `extractableBody` value, `extract_webhook_fields`
completes without raising. -/
theorem extract_fields_ok_of_extractable (wd : Json)
    (h : extractableBody wd = true) :
    ∃ ed, extract_webhook_fields wd = Except.ok ed := by
  rcases wd with _ | b | n | s | xs | fs
  · simp [extractableBody] at h
  · simp [extractableBody] at h
  · simp [extractableBody] at h
  · simp [extractableBody] at h
  · simp [extractableBody] at h
  · simp only [extractableBody, Bool.and_eq_true, Bool.or_eq_true] at h
    obtain ⟨⟨hne, hroom⟩, hpart⟩ := h
    rcases hr : pyDictGet fs "room" (Json.obj []) with _ | b | n | s | xs | rfs
    · rw [hr] at hroom; simp [Json.isObj] at hroom
    · rw [hr] at hroom; simp [Json.isObj] at hroom
    · rw [hr] at hroom; simp [Json.isObj] at hroom
    · rw [hr] at hroom; simp [Json.isObj] at hroom
    · rw [hr] at hroom; simp [Json.isObj] at hroom
    · cases ht : (pyDictGet fs "participant" Json.null).isTruthy with
      | false =>
        exact ⟨_, by rw [extract_webhook_fields_obj, hr, ht]; rfl⟩
      | true =>
        have hobj : (pyDictGet fs "participant" Json.null).isObj = true := by
          rcases hpart with hp | hp
          · rw [ht] at hp; exact absurd hp (by decide)
          · exact hp
        rcases hpv : pyDictGet fs "participant" Json.null with _ | b | n | s | xs | pfs
        · rw [hpv] at hobj; simp [Json.isObj] at hobj
        · rw [hpv] at hobj; simp [Json.isObj] at hobj
        · rw [hpv] at hobj; simp [Json.isObj] at hobj
        · rw [hpv] at hobj; simp [Json.isObj] at hobj
        · rw [hpv] at hobj; simp [Json.isObj] at hobj
        · exact ⟨_, by rw [extract_webhook_fields_obj, hr, ht, hpv]; rfl⟩

/-- C2 (amended): a signature-accepted request whose body is a
non-empty JSON object — with `room`, when present, a dict, and
`participant`, when truthy, a dict — appends exactly one entry to
`call_logs` (previous entries untouched) and returns 200. -/
theorem webhook_valid_object_appends_one (WEBHOOK_SECRET : Option String)
    (hm : String → List Nat → String) (now : String)
    (call_logs : List LogEntry) (req : WebhookRequest) (wd : Json)
    (hsig : verify_webhook_signature WEBHOOK_SECRET hm
      req.raw_payload (req.signature.getD "") = Except.ok true)
    (hjson : req.getJson = Except.ok (some wd))
    (hbody : extractableBody wd = true) :
    ∃ extracted,
      extract_webhook_fields wd = Except.ok extracted ∧
      handle_webhook WEBHOOK_SECRET hm now call_logs req =
        ({ body := Json.obj [("status", Json.str "success"),
                             ("event_processed", extracted.index "event_type")],
           status := 200 },
         call_logs ++
           [{ timestamp := now, raw_webhook := wd,
              extracted_fields := extracted }]) := by
  obtain ⟨ed, hed⟩ := extract_fields_ok_of_extractable wd hbody
  have ht : wd.isTruthy = true := by
    rcases wd with _ | b | n | s | xs | fs
    · simp [extractableBody] at hbody
    · simp [extractableBody] at hbody
    · simp [extractableBody] at hbody
    · simp [extractableBody] at hbody
    · simp [extractableBody] at hbody
    · simp only [extractableBody, Bool.and_eq_true] at hbody
      exact hbody.1.1
  refine ⟨ed, hed, ?_⟩
  unfold handle_webhook
  rw [hsig, hjson]
  simp only [Bool.not_true, Bool.false_eq_true, if_false, ht]
  rw [hed]

/-- C2 (counterexample): a signature-accepted, valid, truthy JSON body
that is not an object — here the array `[1]` — is answered with 500
and appends nothing, so posting valid JSON does not always append one
entry and return 200. -/
theorem webhook_valid_json_not_always_200 :
    (handle_webhook none (fun _ _ => "") "2024-01-01T00:00:00" []
      { raw_payload := [], signature := none,
        getJson := Except.ok (some (Json.arr [Json.num 1])) }).1.status = 500 ∧
    (handle_webhook none (fun _ _ => "") "2024-01-01T00:00:00" []
      { raw_payload := [], signature := none,
        getJson := Except.ok (some (Json.arr [Json.num 1])) }).2 = [] :=
  ⟨rfl, rfl⟩

/-- C3 (counterexample): with `LIVEKIT_API_KEY` present in the
environment but set to the empty string (and `LIVEKIT_API_SECRET`
present and non-empty), `generate_token` returns `None`, although both
credentials are present. -/
theorem generate_token_present_empty_credential :
    ((fun k => if k = "LIVEKIT_API_KEY" then some "" else
        if k = "LIVEKIT_API_SECRET" then some "livekit-secret" else
          (none : Option String)) "LIVEKIT_API_KEY" ≠ none) ∧
    ((fun k => if k = "LIVEKIT_API_KEY" then some "" else
        if k = "LIVEKIT_API_SECRET" then some "livekit-secret" else
          (none : Option String)) "LIVEKIT_API_SECRET" ≠ none) ∧
    generate_token
      (fun k => if k = "LIVEKIT_API_KEY" then some "" else
        if k = "LIVEKIT_API_SECRET" then some "livekit-secret" else none)
      (fun _ _ _ _ => "jwt-token") "test-room" "test-user" = none :=
  ⟨by decide, by decide, rfl⟩

/-- C3 (amended): `generate_token` returns the SDK-produced JWT string
when both `LIVEKIT_API_KEY` and `LIVEKIT_API_SECRET` are present and
non-empty in the environment, and returns `None` when either is unset
or empty. -/
theorem generate_token_credentials (env : String → Option String)
    (to_jwt : String → String → String → String → String)
    (room_name participant_identity : String) :
    (envFalsy (env "LIVEKIT_API_KEY") = false →
      envFalsy (env "LIVEKIT_API_SECRET") = false →
      generate_token env to_jwt room_name participant_identity =
        some (to_jwt ((env "LIVEKIT_API_KEY").getD "")
          ((env "LIVEKIT_API_SECRET").getD "")
          participant_identity room_name)) ∧
    (envFalsy (env "LIVEKIT_API_KEY") = true ∨
        envFalsy (env "LIVEKIT_API_SECRET") = true →
      generate_token env to_jwt room_name participant_identity = none) := by
  constructor
  · intro hk hs
    simp [generate_token, hk, hs]
  · intro h
    rcases h with h | h <;> simp [generate_token, h]

/-- Witness for C3 (amended) at concrete environments: credentials
present and non-empty give a token, an unset key gives `None`. -/
theorem generate_token_credentials_witness :
    envFalsy ((fun _ => some "lk-key") "LIVEKIT_API_KEY") = false ∧
    generate_token (fun _ => some "lk-key") (fun _ _ _ _ => "jwt-token")
      "test-room" "test-user" = some "jwt-token" ∧
    generate_token (fun _ => none) (fun _ _ _ _ => "jwt-token")
      "test-room" "test-user" = none :=
  ⟨rfl,
   (generate_token_credentials (fun _ => some "lk-key")
     (fun _ _ _ _ => "jwt-token") "test-room" "test-user").1 rfl rfl,
   (generate_token_credentials (fun _ => none)
     (fun _ _ _ _ => "jwt-token") "test-room" "test-user").2 (Or.inl rfl)⟩

/-- Witness for C1 (amended) at concrete requests: configured secret
`"secret"`, HMAC digest `"deadbeef"`; an absent header (ASCII `""`) is
answered 401, a non-ASCII header `"ÿ"` is answered 500. -/
theorem webhook_invalid_signature_401_witness :
    ("secret" : String) ≠ "" ∧
    pyIsAscii "deadbeef" = true ∧
    ((none : Option String).getD "" ≠
      (fun (_ : String) (_ : List Nat) => "deadbeef") "secret" ([] : List Nat)) ∧
    pyIsAscii ((none : Option String).getD "") = true ∧
    handle_webhook (some "secret") (fun _ _ => "deadbeef") "2024-01-01T00:00:00" []
      { raw_payload := [], signature := none, getJson := Except.ok none } =
      ({ body := Json.obj [("error", Json.str "Invalid signature")],
         status := 401 }, []) ∧
    pyIsAscii ((some "ÿ" : Option String).getD "") = false ∧
    handle_webhook (some "secret") (fun _ _ => "deadbeef") "2024-01-01T00:00:00" []
      { raw_payload := [], signature := some "ÿ", getJson := Except.ok none } =
      ({ body := Json.obj [("error", Json.str
           "comparing strings with non-ASCII characters is not supported")],
         status := 500 }, []) :=
  ⟨by decide, by decide, by decide, by decide,
   (webhook_invalid_signature_401 "secret" (by decide)
     (fun _ _ => "deadbeef") "2024-01-01T00:00:00" []
     { raw_payload := [], signature := none, getJson := Except.ok none }
     (by decide) (by decide)).1 (by decide),
   by decide,
   (webhook_invalid_signature_401 "secret" (by decide)
     (fun _ _ => "deadbeef") "2024-01-01T00:00:00" []
     { raw_payload := [], signature := some "ÿ", getJson := Except.ok none }
     (by decide) (by decide)).2 (by decide)⟩

/-- Witness for C2 (amended) at a concrete request: no secret
configured, body `{"event": "room_started"}` — one entry appended,
status 200. -/
theorem webhook_valid_object_appends_one_witness :
    verify_webhook_signature none (fun _ _ => "") [] "" = Except.ok true ∧
    extractableBody (Json.obj [("event", Json.str "room_started")]) = true ∧
    (∃ extracted,
      extract_webhook_fields (Json.obj [("event", Json.str "room_started")]) =
        Except.ok extracted ∧
      handle_webhook none (fun _ _ => "") "2024-01-01T00:00:00" []
        { raw_payload := [], signature := none,
          getJson := Except.ok (some (Json.obj [("event", Json.str "room_started")])) } =
        ({ body := Json.obj [("status", Json.str "success"),
                             ("event_processed", extracted.index "event_type")],
           status := 200 },
         [{ timestamp := "2024-01-01T00:00:00",
            raw_webhook := Json.obj [("event", Json.str "room_started")],
            extracted_fields := extracted }])) :=
  ⟨rfl, by decide,
   webhook_valid_object_appends_one none (fun _ _ => "") "2024-01-01T00:00:00" []
     { raw_payload := [], signature := none,
       getJson := Except.ok (some (Json.obj [("event", Json.str "room_started")])) }
     (Json.obj [("event", Json.str "room_started")]) rfl rfl (by decide)⟩

/-- Witness for C4 at concrete requests: missing body gives the fixed
400, a non-empty object body does not. -/
theorem webhook_missing_body_400_witness :
    handle_webhook none (fun _ _ => "") "2024-01-01T00:00:00" []
      { raw_payload := [], signature := none, getJson := Except.ok none } =
      ({ body := Json.obj [("error", Json.str "No data provided")],
         status := 400 }, []) ∧
    (handle_webhook none (fun _ _ => "") "2024-01-01T00:00:00" []
      { raw_payload := [], signature := none,
        getJson := Except.ok (some (Json.obj
          [("event", Json.str "room_finished")])) }).1.status ≠ 400 :=
  ⟨(webhook_missing_body_400 none (fun _ _ => "") "2024-01-01T00:00:00" []
      { raw_payload := [], signature := none, getJson := Except.ok none } rfl).1 rfl,
   (webhook_missing_body_400 none (fun _ _ => "") "2024-01-01T00:00:00" []
      { raw_payload := [], signature := none,
        getJson := Except.ok (some (Json.obj
          [("event", Json.str "room_finished")])) } rfl).2
     [("event", Json.str "room_finished")] (List.cons_ne_nil _ _) rfl⟩

/-- Witness for C5 at a concrete request: the body parse raises
`"boom"` — answered 500 with that message. -/
theorem webhook_exception_500_witness :
    handle_webhook none (fun _ _ => "") "2024-01-01T00:00:00" []
      { raw_payload := [], signature := none, getJson := Except.error "boom" } =
      ({ body := Json.obj [("error", Json.str "boom")], status := 500 }, []) :=
  webhook_exception_500 none (fun _ _ => "") "2024-01-01T00:00:00" []
    { raw_payload := [], signature := none, getJson := Except.error "boom" }
    "boom" rfl (Or.inl rfl)

/-- Witness for C9 at a concrete configuration: `WEBHOOK_SECRET`
unset, arbitrary signature accepted, no 401 answer. -/
theorem no_secret_accepts_all_witness :
    verify_webhook_signature none (fun _ _ => "expected") [7] "anything" = Except.ok true ∧
    (handle_webhook none (fun _ _ => "expected") "2024-01-01T00:00:00" []
      { raw_payload := [7], signature := some "anything",
        getJson := Except.ok none }).1.status ≠ 401 :=
  ⟨(no_secret_accepts_all none (Or.inl rfl)).1 (fun _ _ => "expected") [7] "anything",
   (no_secret_accepts_all none (Or.inl rfl)).2 (fun _ _ => "expected")
     "2024-01-01T00:00:00" []
     { raw_payload := [7], signature := some "anything", getJson := Except.ok none }⟩

/-- Witness for C10 at a concrete request: an invalid signature is
answered 401 and the one stored entry is untouched. -/
theorem error_responses_preserve_logs_witness :
    (handle_webhook (some "secret") (fun _ _ => "deadbeef") "2024-01-01T00:00:00"
      [{ timestamp := "t0", raw_webhook := Json.null, extracted_fields := Json.null }]
      { raw_payload := [], signature := none,
        getJson := Except.ok none }).1.status = 401 ∧
    (handle_webhook (some "secret") (fun _ _ => "deadbeef") "2024-01-01T00:00:00"
      [{ timestamp := "t0", raw_webhook := Json.null, extracted_fields := Json.null }]
      { raw_payload := [], signature := none, getJson := Except.ok none }).2 =
      [{ timestamp := "t0", raw_webhook := Json.null, extracted_fields := Json.null }] :=
  ⟨rfl,
   error_responses_preserve_logs (some "secret") (fun _ _ => "deadbeef")
     "2024-01-01T00:00:00"
     [{ timestamp := "t0", raw_webhook := Json.null, extracted_fields := Json.null }]
     { raw_payload := [], signature := none, getJson := Except.ok none }
     (Or.inl rfl)⟩
